import Mathlib

/-!
Shallow embedding of the ECL `SensorRangeFinder` component
(`src/EKF/SensorRangeFinder.hpp`).

Modelling conventions:
* C++ `float` values (distances, trig caches, filtered intervals) are
  modelled as rationals `ℚ`; `uint64_t` microsecond timestamps as `Nat`.
* The implicit C++ conversion `float → bool` (used by `getValidMinVal` /
  `getValidMaxVal`, whose declared return type is `bool`) is modelled as
  the test `value ≠ 0`.
* `sinf` / `cosf` are passed to `setTilt` as explicit function parameters,
  so the embedding stays executable and the theorems hold for every
  interpretation of the transcendental functions.
* The bodies of `runChecks`, `updateRangeDataValidity`,
  `updateRangeDataContinuity`, `updateRangeDataStuck` live in a
  translation unit that is not part of the available sources; they are
  modelled from the specification and marked `Modelled from the spec:`.
-/

/-- `estimator::rangeSample`: monotonic timestamp in microseconds,
measured distance in metres, integer signal-quality indicator. -/
structure rangeSample where
  time_us : Nat := 0
  rng : ℚ := 0
  quality : Int := 0
  deriving Repr, DecidableEq

/-- `FLT_EPSILON` for IEEE-754 single precision, `2 ^ (-23)`. -/
def fltEpsilon : ℚ := 1 / 8388608

/-- State record of `class SensorRangeFinder`, with the default member
initializers of the header (`{}` zero-initializes, `_is_stuck{}` is
`false`, `_range_cos_max_tilt{0.7071f}`, `_range_stuck_threshold{0.1f}`,
`_range_signal_hysteresis_ms{1000}`). -/
structure SensorRangeFinder where
  newest_sample : rangeSample := {}
  range_sample_delayed : rangeSample := {}
  range_data_ready : Bool := false
  rng_hgt_valid : Bool := false
  is_stuck : Bool := false
  dt_last_range_update_filt_us : ℚ := 0
  time_last_rng_ready : Nat := 0
  time_bad_rng_signal_quality : Nat := 0
  rng_stuck_min_val : ℚ := 0
  rng_stuck_max_val : ℚ := 0
  tilt : ℚ := 0
  sin_tilt_rng : ℚ := 0
  cos_tilt_rng : ℚ := 0
  R_rng_to_earth_2_2 : ℚ := 0
  rng_valid_min_val : ℚ := 0
  rng_valid_max_val : ℚ := 0
  range_cos_max_tilt : ℚ := 7071 / 10000
  range_stuck_threshold : ℚ := 1 / 10
  range_signal_hysteresis_ms : Nat := 1000
  deriving Repr, DecidableEq

/-- The state produced by the default constructor `SensorRangeFinder()`. -/
def defaultState : SensorRangeFinder := {}

/-- `_dt_update{0.01f}`: fixed per-cycle delta time (seconds), expressed
here in microseconds. -/
def dt_update_us : ℚ := 10000

namespace SensorRangeFinder

/-- `bool isHealthy() const { return _rng_hgt_valid; }` -/
def isHealthy (s : SensorRangeFinder) : Bool := s.rng_hgt_valid

/-- `bool isNewHealthyData() const { return _range_data_ready && _rng_hgt_valid; }` -/
def isNewHealthyData (s : SensorRangeFinder) : Bool :=
  s.range_data_ready && s.rng_hgt_valid

/-- `bool isDelayedHealthyData() const { return _range_data_ready && _rng_hgt_valid; }` -/
def isDelayedHealthyData (s : SensorRangeFinder) : Bool :=
  s.range_data_ready && s.rng_hgt_valid

/-- `void setNewestSample(rangeSample sample) { _newest_sample = sample; }` -/
def setNewestSample (smp : rangeSample) (s : SensorRangeFinder) : SensorRangeFinder :=
  { s with newest_sample := smp }

/-- `setDelayedSample`: overwrites the delayed slot and sets the
data-ready flag. -/
def setDelayedSample (smp : rangeSample) (s : SensorRangeFinder) : SensorRangeFinder :=
  { s with range_sample_delayed := smp, range_data_ready := true }

/-- `setTilt(float new_tilt, float range_cos_max_tilt)`: recomputes the
trig caches when `fabsf(_tilt - new_tilt) > FLT_EPSILON`; note the source
never assigns `_tilt = new_tilt`.  `sinf`/`cosf` are parameters of the
embedding. -/
def setTilt (sinf cosf : ℚ → ℚ) (new_tilt range_cos_max_tilt : ℚ)
    (s : SensorRangeFinder) : SensorRangeFinder :=
  if |s.tilt - new_tilt| > fltEpsilon then
    { s with sin_tilt_rng := sinf new_tilt, cos_tilt_rng := cosf new_tilt,
             range_cos_max_tilt := range_cos_max_tilt }
  else
    { s with range_cos_max_tilt := range_cos_max_tilt }

/-- The branch condition of `setTilt` in state `s` for a candidate new
tilt angle: true exactly when the source would call `sinf` and `cosf`. -/
def setTiltRecomputes (s : SensorRangeFinder) (new_tilt : ℚ) : Bool :=
  decide (|s.tilt - new_tilt| > fltEpsilon)

/-- `setLimits(float min_distance, float max_distance)` -/
def setLimits (min_distance max_distance : ℚ) (s : SensorRangeFinder) :
    SensorRangeFinder :=
  { s with rng_valid_min_val := min_distance, rng_valid_max_val := max_distance }

/-- `float getRToEarth() const { return _R_rng_to_earth_2_2; }` -/
def getRToEarth (s : SensorRangeFinder) : ℚ := s.R_rng_to_earth_2_2

/-- `void setDelayedRng(float rng) { _range_sample_delayed.rng = rng; }` -/
def setDelayedRng (rng : ℚ) (s : SensorRangeFinder) : SensorRangeFinder :=
  { s with range_sample_delayed := { s.range_sample_delayed with rng := rng } }

/-- `float getDelayedRng() const { return _range_sample_delayed.rng; }` -/
def getDelayedRng (s : SensorRangeFinder) : ℚ := s.range_sample_delayed.rng

/-- `void setDataReadiness(bool is_ready) { _range_data_ready = is_ready; }` -/
def setDataReadiness (is_ready : Bool) (s : SensorRangeFinder) : SensorRangeFinder :=
  { s with range_data_ready := is_ready }

/-- `void setValidity(bool is_valid) { _rng_hgt_valid = is_valid; }` -/
def setValidity (is_valid : Bool) (s : SensorRangeFinder) : SensorRangeFinder :=
  { s with rng_hgt_valid := is_valid }

/-- `bool isStuck() const { return _is_stuck; }` -/
def isStuck (s : SensorRangeFinder) : Bool := s.is_stuck

/-- `bool isTiltOk() const { return _R_rng_to_earth_2_2 > _range_cos_max_tilt; }` -/
def isTiltOk (s : SensorRangeFinder) : Bool :=
  decide (s.R_rng_to_earth_2_2 > s.range_cos_max_tilt)

/-- `bool getValidMinVal() const { return _rng_valid_min_val; }` — the
declared return type is `bool`, so the stored `float` is converted:
true iff nonzero. -/
def getValidMinVal (s : SensorRangeFinder) : Bool :=
  decide (s.rng_valid_min_val ≠ 0)

/-- `bool getValidMaxVal() const { return _rng_valid_max_val; }` — same
implicit `float → bool` conversion. -/
def getValidMaxVal (s : SensorRangeFinder) : Bool :=
  decide (s.rng_valid_max_val ≠ 0)

/-- `bool isRangeDataContinuous() const { return _dt_last_range_update_filt_us < 2e6f; }` -/
def isRangeDataContinuous (s : SensorRangeFinder) : Bool :=
  decide (s.dt_last_range_update_filt_us < 2000000)

/-- Writing the delayed sample in place through the exposed handle
`getSampleDelayedAddress()`: overwrites only the delayed slot. -/
def writeSampleDelayedAddress (smp : rangeSample) (s : SensorRangeFinder) :
    SensorRangeFinder :=
  { s with range_sample_delayed := smp }

/-- Modelled from the spec: bounds check used by the aggregator and the
stuck detector (the body of `updateRangeDataValidity` is in a missing
translation unit) — the delayed distance lies within the configured
min/max valid distances. -/
def distanceInBounds (s : SensorRangeFinder) : Bool :=
  decide (s.rng_valid_min_val ≤ s.range_sample_delayed.rng ∧
          s.range_sample_delayed.rng ≤ s.rng_valid_max_val)

/-- Modelled from the spec: fixed blend coefficient of the first-order
low-pass filter of the inter-update interval ("time constant fixed,
independent of the per-cycle delta"); the spec fixes the existence of the
constant but not its value. -/
def contFilterAlpha : ℚ := 1 / 10

/-- Modelled from the spec: `updateRangeDataContinuity` (missing
translation unit).  If data-ready: blend the raw interval
(current time − last-ready time) into the filtered interval and stamp the
last-ready time; otherwise grow the filtered interval by the nominal
per-cycle delta time. -/
def updateRangeDataContinuity (t : Nat) (s : SensorRangeFinder) :
    SensorRangeFinder :=
  if s.range_data_ready then
    { s with
      dt_last_range_update_filt_us :=
        s.dt_last_range_update_filt_us * (1 - contFilterAlpha) +
          contFilterAlpha * ((t : ℚ) - (s.time_last_rng_ready : ℚ)),
      time_last_rng_ready := t }
  else
    { s with dt_last_range_update_filt_us :=
        s.dt_last_range_update_filt_us + dt_update_us }

/-- Modelled from the spec: `updateRangeDataStuck` (missing translation
unit).  Only an in-bounds reading participates; the [min, max] window is
widened by the reading, a spread above the unstick threshold resets the
window to the reading alone and clears stuck, otherwise the sensor is
declared stuck. -/
def updateRangeDataStuck (s : SensorRangeFinder) : SensorRangeFinder :=
  if distanceInBounds s then
    let r := s.range_sample_delayed.rng
    let mn := min s.rng_stuck_min_val r
    let mx := max s.rng_stuck_max_val r
    if mx - mn > s.range_stuck_threshold then
      { s with rng_stuck_min_val := r, rng_stuck_max_val := r, is_stuck := false }
    else
      { s with rng_stuck_min_val := mn, rng_stuck_max_val := mx, is_stuck := true }
  else s

/-- Modelled from the spec: quality-hysteresis decision (missing
translation unit).  The sample is quality-bad when the newest sample's
quality indicator is zero and has been zero continuously for at least the
configured hysteresis duration (milliseconds, compared against
microsecond timestamps). -/
def signalQualityOk (t : Nat) (s : SensorRangeFinder) : Bool :=
  !(decide (s.newest_sample.quality = 0) &&
    decide (s.range_signal_hysteresis_ms * 1000 ≤ t - s.time_bad_rng_signal_quality))

/-- Modelled from the spec: quality-hysteresis timer update (missing
translation unit) — the bad-quality timer resets to the current time the
moment quality becomes non-zero. -/
def updateSignalQuality (t : Nat) (s : SensorRangeFinder) : SensorRangeFinder :=
  if s.newest_sample.quality ≠ 0 then
    { s with time_bad_rng_signal_quality := t }
  else s

/-- Modelled from the spec: `updateRangeDataValidity` (missing
translation unit).  Updates continuity, stuck state and quality
hysteresis in order, then latches
`validity = distance_in_bounds AND tilt_ok AND continuous AND NOT stuck AND quality_ok`. -/
def updateRangeDataValidity (t : Nat) (s : SensorRangeFinder) :
    SensorRangeFinder :=
  let s2 := updateRangeDataContinuity t s
  let s3 := updateRangeDataStuck s2
  let s4 := updateSignalQuality t s3
  { s4 with rng_hgt_valid :=
      distanceInBounds s4 && s4.isTiltOk && s4.isRangeDataContinuous &&
        !s4.is_stuck && signalQualityOk t s4 }

/-- Modelled from the spec: `runChecks(time_delayed_us, R_to_earth)`
(missing translation unit).  Computes the effective vertical-alignment
cosine from two rotation-matrix elements and the cached mounting-tilt
trig values, then runs `updateRangeDataValidity`. -/
def runChecks (t : Nat) (r20 r22 : ℚ) (s : SensorRangeFinder) :
    SensorRangeFinder :=
  updateRangeDataValidity t
    { s with R_rng_to_earth_2_2 := r20 * s.sin_tilt_rng + r22 * s.cos_tilt_rng }

end SensorRangeFinder

/-- The public operations of the component, for stating properties that
quantify over everything a caller can do. -/
inductive Op where
  | setNewestSample (smp : rangeSample)
  | setDelayedSample (smp : rangeSample)
  | setTilt (new_tilt range_cos_max_tilt : ℚ)
  | setLimits (min_distance max_distance : ℚ)
  | setDelayedRng (rng : ℚ)
  | setDataReadiness (is_ready : Bool)
  | setValidity (is_valid : Bool)
  | writeSampleDelayedAddress (smp : rangeSample)
  | runChecks (t : Nat) (r20 r22 : ℚ)

/-- One public call, as a state transformer; `sinf`/`cosf` interpret the
transcendental functions used by `setTilt`. -/
def applyOp (sinf cosf : ℚ → ℚ) : Op → SensorRangeFinder → SensorRangeFinder
  | Op.setNewestSample smp, s => s.setNewestSample smp
  | Op.setDelayedSample smp, s => s.setDelayedSample smp
  | Op.setTilt a c, s => s.setTilt sinf cosf a c
  | Op.setLimits mn mx, s => s.setLimits mn mx
  | Op.setDelayedRng r, s => s.setDelayedRng r
  | Op.setDataReadiness b, s => s.setDataReadiness b
  | Op.setValidity b, s => s.setValidity b
  | Op.writeSampleDelayedAddress smp, s => s.writeSampleDelayedAddress smp
  | Op.runChecks t r20 r22, s => s.runChecks t r20 r22

/-- The combined health-of-data condition as the specification words it:
data-ready AND the latched validity flag. -/
def healthyDataSpec (s : SensorRangeFinder) : Bool :=
  s.range_data_ready && s.rng_hgt_valid

open SensorRangeFinder

/-- The all-zero interpretation of `sinf`/`cosf`, used to instantiate
concrete scenarios. -/
def zeroFun : ℚ → ℚ := fun _ => 0

/-- `setTilt` never assigns the stored `_tilt` field, in any branch. -/
lemma tilt_setTilt (sinf cosf : ℚ → ℚ) (a c : ℚ) (s : SensorRangeFinder) :
    (s.setTilt sinf cosf a c).tilt = s.tilt := by
  unfold SensorRangeFinder.setTilt
  split_ifs <;> rfl

/-- `runChecks` never changes the data-ready flag. -/
lemma ready_runChecks (t : Nat) (r20 r22 : ℚ) (s : SensorRangeFinder) :
    (s.runChecks t r20 r22).range_data_ready = s.range_data_ready := by
  unfold SensorRangeFinder.runChecks SensorRangeFinder.updateRangeDataValidity
    SensorRangeFinder.updateSignalQuality SensorRangeFinder.updateRangeDataStuck
    SensorRangeFinder.updateRangeDataContinuity
  dsimp only
  split_ifs <;> rfl

/-- C4: `isNewHealthyData()` and `isDelayedHealthyData()` return the same
value in every state, and that value is data-ready AND the latched
validity flag (`isHealthy()` plus the ready requirement). -/
theorem healthyData_getters_agree (s : SensorRangeFinder) :
    s.isNewHealthyData = s.isDelayedHealthyData ∧
    s.isNewHealthyData = healthyDataSpec s ∧
    s.isDelayedHealthyData = (s.range_data_ready && s.isHealthy) :=
  ⟨rfl, rfl, rfl⟩

/-- C6: `isTiltOk()` is true iff the cached vertical-alignment cosine is
strictly greater than the configured max-tilt cosine; at or below the
threshold it is false. -/
theorem isTiltOk_iff_cos_gt_threshold (s : SensorRangeFinder) :
    (s.isTiltOk = true ↔ s.R_rng_to_earth_2_2 > s.range_cos_max_tilt) ∧
    (s.R_rng_to_earth_2_2 ≤ s.range_cos_max_tilt → s.isTiltOk = false) := by
  constructor
  · simp [SensorRangeFinder.isTiltOk]
  · intro h
    simp [SensorRangeFinder.isTiltOk]
    exact h

/-- C6 witness: a state with alignment cosine 1 against threshold 0.7071
is tilt-ok; a state sitting exactly at the threshold is not. -/
theorem isTiltOk_iff_cos_gt_threshold_witness :
    ({ defaultState with R_rng_to_earth_2_2 := 1 } : SensorRangeFinder).isTiltOk = true ∧
    ({ defaultState with R_rng_to_earth_2_2 := 7071 / 10000 } : SensorRangeFinder).isTiltOk = false :=
  ⟨(isTiltOk_iff_cos_gt_threshold _).1.mpr (by norm_num [defaultState]),
   (isTiltOk_iff_cos_gt_threshold _).2 (by norm_num [defaultState])⟩

/-- C7: the continuity decision is exactly
`filtered interval < 2,000,000 microseconds`, and it depends on no state
field other than the filtered interval (in particular on no configurable
parameter); the threshold is the literal constant of
`isRangeDataContinuous`. -/
theorem isRangeDataContinuous_iff_lt_two_seconds (s s' : SensorRangeFinder) :
    (s.isRangeDataContinuous = true ↔ s.dt_last_range_update_filt_us < 2000000) ∧
    (s.dt_last_range_update_filt_us = s'.dt_last_range_update_filt_us →
      s.isRangeDataContinuous = s'.isRangeDataContinuous) := by
  constructor
  · simp [SensorRangeFinder.isRangeDataContinuous]
  · intro h
    simp [SensorRangeFinder.isRangeDataContinuous, h]

/-- C7 witness: the default state (filtered interval 0) is continuous,
and a state differing from it in every configurable parameter but with
the same filtered interval decides continuity identically. -/
theorem isRangeDataContinuous_iff_lt_two_seconds_witness :
    defaultState.isRangeDataContinuous = true ∧
    defaultState.isRangeDataContinuous =
      ({ defaultState with range_cos_max_tilt := 0, rng_valid_min_val := 5,
                           rng_valid_max_val := 7, range_stuck_threshold := 3,
                           range_signal_hysteresis_ms := 77 } : SensorRangeFinder).isRangeDataContinuous :=
  ⟨(isRangeDataContinuous_iff_lt_two_seconds defaultState defaultState).1.mpr (by norm_num [defaultState]),
   (isRangeDataContinuous_iff_lt_two_seconds defaultState _).2 rfl⟩

/-- C8: round-trip — `setDelayedRng` then `getDelayedRng` returns the
written value, and after `setDelayedSample(s)` the getter returns `s`'s
distance field. -/
theorem delayedRng_roundTrip (r : ℚ) (smp : rangeSample) (s : SensorRangeFinder) :
    (s.setDelayedRng r).getDelayedRng = r ∧
    (s.setDelayedSample smp).getDelayedRng = smp.rng :=
  ⟨rfl, rfl⟩

/-- C9: the default-constructed state has validity false, stuck false,
data-ready false (hence both healthy-data getters false) and a quality
hysteresis duration of 1000 ms. -/
theorem defaultState_construction :
    defaultState.isHealthy = false ∧ defaultState.isStuck = false ∧
    defaultState.range_data_ready = false ∧
    defaultState.isNewHealthyData = false ∧
    defaultState.isDelayedHealthyData = false ∧
    defaultState.range_signal_hysteresis_ms = 1000 :=
  ⟨rfl, rfl, rfl, rfl, rfl, rfl⟩

/-- C10: after `setLimits(min, max)`, the `bool`-returning getters
`getValidMinVal` / `getValidMaxVal` report the implicit float-to-bool
conversion of the stored distances: true exactly when the stored value is
nonzero. -/
theorem getValid_val_after_setLimits (mn mx : ℚ) (s : SensorRangeFinder) :
    ((s.setLimits mn mx).getValidMinVal = true ↔ mn ≠ 0) ∧
    ((s.setLimits mn mx).getValidMaxVal = true ↔ mx ≠ 0) := by
  simp [SensorRangeFinder.setLimits, SensorRangeFinder.getValidMinVal,
        SensorRangeFinder.getValidMaxVal]

/-- C10 witness: with limits (1/2, 30) both getters are true; with a zero
minimum the min getter is false even though 0 is a legitimate stored
distance. -/
theorem getValid_val_after_setLimits_witness :
    (defaultState.setLimits (1/2) 30).getValidMinVal = true ∧
    ((defaultState.setLimits 0 30).getValidMinVal = true ↔ (0 : ℚ) ≠ 0) :=
  ⟨(getValid_val_after_setLimits (1/2) 30 defaultState).1.mpr (by norm_num),
   (getValid_val_after_setLimits 0 30 defaultState).1⟩

/-- C1: after `runChecks`, `isHealthy()` equals the conjunction of the
five checks evaluated on the resulting state: distance in bounds AND
tilt-ok AND continuous AND NOT stuck AND quality-ok. -/
theorem runChecks_isHealthy_eq_aggregate (t : Nat) (r20 r22 : ℚ) (s : SensorRangeFinder) :
    (s.runChecks t r20 r22).isHealthy =
      (distanceInBounds (s.runChecks t r20 r22) &&
       (s.runChecks t r20 r22).isTiltOk &&
       (s.runChecks t r20 r22).isRangeDataContinuous &&
       !(s.runChecks t r20 r22).is_stuck &&
       signalQualityOk t (s.runChecks t r20 r22)) := by
  unfold SensorRangeFinder.runChecks SensorRangeFinder.updateRangeDataValidity
    SensorRangeFinder.updateSignalQuality SensorRangeFinder.updateRangeDataStuck
    SensorRangeFinder.updateRangeDataContinuity
  dsimp only
  split_ifs <;> rfl

/-- C2 counterexample: `setDataReadiness(true)` — a public operation
other than `setDelayedSample` — turns the data-ready flag from false to
true, refuting "no other operation of the component ever sets the
data-ready flag to true". -/
theorem setDataReadiness_true_sets_ready :
    defaultState.range_data_ready = false ∧
    (applyOp zeroFun zeroFun (Op.setDataReadiness true) defaultState).range_data_ready = true :=
  ⟨rfl, rfl⟩

/-- C2 amended: `setDelayedSample(s)` overwrites the delayed slot with
`s` and unconditionally sets data-ready; the only public operations that
can turn the data-ready flag from false to true are `setDelayedSample`
and `setDataReadiness(true)`. -/
theorem setDelayedSample_ready_paths (sinf cosf : ℚ → ℚ) (smp : rangeSample)
    (op : Op) (s : SensorRangeFinder) :
    ((s.setDelayedSample smp).range_sample_delayed = smp ∧
     (s.setDelayedSample smp).range_data_ready = true) ∧
    ((applyOp sinf cosf op s).range_data_ready = true →
      s.range_data_ready = true ∨ (∃ smp2, op = Op.setDelayedSample smp2) ∨
      op = Op.setDataReadiness true) := by
  refine ⟨⟨rfl, rfl⟩, ?_⟩
  intro h
  cases op with
  | setNewestSample smp2 => exact Or.inl h
  | setDelayedSample smp2 => exact Or.inr (Or.inl ⟨smp2, rfl⟩)
  | setTilt a c =>
      refine Or.inl ?_
      rw [← h]
      show s.range_data_ready = (s.setTilt sinf cosf a c).range_data_ready
      unfold SensorRangeFinder.setTilt
      split_ifs <;> rfl
  | setLimits mn mx => exact Or.inl h
  | setDelayedRng r => exact Or.inl h
  | setDataReadiness b =>
      cases b with
      | false => exact absurd h (by simp [applyOp, SensorRangeFinder.setDataReadiness])
      | true => exact Or.inr (Or.inr rfl)
  | setValidity b => exact Or.inl h
  | writeSampleDelayedAddress smp2 => exact Or.inl h
  | runChecks t r20 r22 =>
      refine Or.inl ?_
      rw [← h]
      exact (ready_runChecks t r20 r22 s).symm

/-- C2 witness: instantiating the amended theorem at the default state
with a concrete sample: `setDelayedSample` stores the sample and sets the
data-ready flag. -/
theorem setDelayedSample_ready_paths_witness :
    (defaultState.setDelayedSample { time_us := 7, rng := 5, quality := 100 }).range_sample_delayed =
      { time_us := 7, rng := 5, quality := 100 } ∧
    (defaultState.setDelayedSample { time_us := 7, rng := 5, quality := 100 }).range_data_ready = true ∧
    (defaultState.range_data_ready = true ∨
      (∃ smp2, Op.setDelayedSample ({ time_us := 7, rng := 5, quality := 100 } : rangeSample) =
        Op.setDelayedSample smp2) ∨
      Op.setDelayedSample ({ time_us := 7, rng := 5, quality := 100 } : rangeSample) =
        Op.setDataReadiness true) :=
  ⟨(setDelayedSample_ready_paths zeroFun zeroFun
      { time_us := 7, rng := 5, quality := 100 }
      (Op.setDelayedSample { time_us := 7, rng := 5, quality := 100 })
      defaultState).1.1,
   (setDelayedSample_ready_paths zeroFun zeroFun
      { time_us := 7, rng := 5, quality := 100 }
      (Op.setDelayedSample { time_us := 7, rng := 5, quality := 100 })
      defaultState).1.2,
   (setDelayedSample_ready_paths zeroFun zeroFun
      { time_us := 7, rng := 5, quality := 100 }
      (Op.setDelayedSample { time_us := 7, rng := 5, quality := 100 })
      defaultState).2 rfl⟩

/-- C3: evidence of the `setTilt` slip — the source never assigns
`_tilt = new_tilt`, so from the default state (`_tilt = 0`) a call with
tilt 1/2 recomputes, and an immediately repeated call with the same tilt
1/2 recomputes again (the branch guard is still taken); moreover a call
whose tilt is within epsilon of the stored `_tilt` (here 0) leaves the
stale cached cosine 0, although the cosine of the requested angle 0 is 1. -/
theorem setTilt_repeated_call_still_recomputes (sinf cosf : ℚ → ℚ) :
    setTiltRecomputes defaultState (1/2) = true ∧
    setTiltRecomputes (defaultState.setTilt sinf cosf (1/2) (7071/10000)) (1/2) = true ∧
    (defaultState.setTilt sinf cosf 0 (7071/10000)).cos_tilt_rng = 0 := by
  have habs : |defaultState.tilt - (1/2 : ℚ)| = 1/2 := by
    rw [show defaultState.tilt - (1/2 : ℚ) = -(1/2) by norm_num [defaultState],
        abs_neg, abs_of_pos (by norm_num : (0:ℚ) < 1/2)]
  refine ⟨?_, ?_, ?_⟩
  · unfold SensorRangeFinder.setTiltRecomputes
    rw [habs]
    norm_num [fltEpsilon]
  · unfold SensorRangeFinder.setTiltRecomputes
    rw [tilt_setTilt, habs]
    norm_num [fltEpsilon]
  · unfold SensorRangeFinder.setTilt
    norm_num [defaultState, fltEpsilon]

/-- C5 counterexample: from the default state, the public operation
`setValidity(true)` yields a state where `isHealthy()` is true while the
data-ready flag is false, refuting the claimed reachable-state
invariant. -/
theorem setValidity_true_without_ready :
    (applyOp zeroFun zeroFun (Op.setValidity true) defaultState).isHealthy = true ∧
    (applyOp zeroFun zeroFun (Op.setValidity true) defaultState).range_data_ready = false :=
  ⟨rfl, rfl⟩

/-- C5 amended: the health predicates that assert usable data never hold
while data-ready is false — in every state with the data-ready flag off,
`isNewHealthyData()` and `isDelayedHealthyData()` are false. -/
theorem not_ready_implies_healthyData_false (s : SensorRangeFinder)
    (h : s.range_data_ready = false) :
    s.isNewHealthyData = false ∧ s.isDelayedHealthyData = false := by
  simp [SensorRangeFinder.isNewHealthyData, SensorRangeFinder.isDelayedHealthyData, h]

/-- C5 witness: the default state has the data-ready flag off and both
healthy-data getters false. -/
theorem not_ready_implies_healthyData_false_witness :
    defaultState.isNewHealthyData = false ∧ defaultState.isDelayedHealthyData = false :=
  ⟨(not_ready_implies_healthyData_false defaultState rfl).1,
   (not_ready_implies_healthyData_false defaultState rfl).2⟩
